import Mathlib

/-!
Shallow embedding of the go-fil-markets storage-deal provider state machine:
the deal status enumeration, the provider/client event enumerations and their
display-name maps (storagemarket/types.go), the provider FSM transition table
(storagemarket/impl/providerstates/provider_fsm.go), and the parts of the
engine and the state-entry handlers that the verified claims require.
-/

namespace storagemarket

/-- `type StorageDealStatus = uint64` -/
abbrev StorageDealStatus := Nat

def StorageDealUnknown : StorageDealStatus := 0
def StorageDealProposalNotFound : StorageDealStatus := 1
def StorageDealProposalRejected : StorageDealStatus := 2
def StorageDealProposalAccepted : StorageDealStatus := 3
def StorageDealStaged : StorageDealStatus := 4
def StorageDealSealing : StorageDealStatus := 5
def StorageDealActive : StorageDealStatus := 6
def StorageDealFailing : StorageDealStatus := 7
def StorageDealNotFound : StorageDealStatus := 8
def StorageDealFundsEnsured : StorageDealStatus := 9
def StorageDealValidating : StorageDealStatus := 10
def StorageDealTransferring : StorageDealStatus := 11
def StorageDealWaitingForData : StorageDealStatus := 12
def StorageDealVerifyData : StorageDealStatus := 13
def StorageDealEnsureProviderFunds : StorageDealStatus := 14
def StorageDealEnsureClientFunds : StorageDealStatus := 15
def StorageDealProviderFunding : StorageDealStatus := 16
def StorageDealClientFunding : StorageDealStatus := 17
def StorageDealPublish : StorageDealStatus := 18
def StorageDealPublishing : StorageDealStatus := 19
def StorageDealError : StorageDealStatus := 20
def StorageDealCompleted : StorageDealStatus := 21

/-- `market.DealProposal` — the proposal fields the provider handlers consult.
Token amounts (`big.Int` in the source) are `Int`; sizes (`uint64`) are `Nat`;
epochs (`int64`) are `Int`; CIDs and addresses are opaque `Nat` identifiers. -/
structure DealProposal where
  PieceCID : Nat
  PieceSize : Nat
  Client : Nat
  Provider : Nat
  StartEpoch : Int
  EndEpoch : Int
  StoragePricePerEpoch : Int
  ProviderCollateral : Int
  ClientCollateral : Int
deriving DecidableEq, Repr

/-- `market.DealProposal.Duration() = EndEpoch - StartEpoch` -/
def DealProposal.Duration (p : DealProposal) : Int := p.EndEpoch - p.StartEpoch

/-- `storagemarket.MinerDeal` — the provider deal record. -/
structure MinerDeal where
  Proposal : DealProposal
  ProposalCid : Nat
  AddFundsCid : Option Nat
  PublishCid : Option Nat
  Miner : Nat
  Client : Nat
  State : StorageDealStatus
  PiecePath : String
  MetadataPath : String
  ConnectionClosed : Bool
  Message : String
  DealID : Nat
deriving DecidableEq, Repr

/-- `storagemarket.StorageAsk` (signature wrapper omitted; `Price` is per
GiB and epoch). -/
structure StorageAsk where
  Price : Int
  MinPieceSize : Nat
  MaxPieceSize : Nat
  Miner : Nat
  Timestamp : Int
  Expiry : Int
  SeqNo : Nat
deriving DecidableEq, Repr

/-- `storagemarket.ProviderEvent` — event codes in declaration (iota) order. -/
inductive ProviderEvent where
  | ProviderEventOpen
  | ProviderEventNodeErrored
  | ProviderEventDealRejected
  | ProviderEventDealAccepted
  | ProviderEventWaitingForManualData
  | ProviderEventInsufficientFunds
  | ProviderEventFundingInitiated
  | ProviderEventFunded
  | ProviderEventDataTransferFailed
  | ProviderEventDataTransferInitiated
  | ProviderEventDataTransferCompleted
  | ProviderEventManualDataReceived
  | ProviderEventGeneratePieceCIDFailed
  | ProviderEventVerifiedData
  | ProviderEventSendResponseFailed
  | ProviderEventDealPublishInitiated
  | ProviderEventDealPublished
  | ProviderEventDealPublishError
  | ProviderEventFileStoreErrored
  | ProviderEventDealHandoffFailed
  | ProviderEventDealHandedOff
  | ProviderEventDealActivationFailed
  | ProviderEventUnableToLocatePiece
  | ProviderEventDealActivated
  | ProviderEventPieceStoreErrored
  | ProviderEventReadMetadataErrored
  | ProviderEventDealCompleted
  | ProviderEventFailed
  | ProviderEventRestart
deriving DecidableEq, Repr

/-- `storagemarket.ClientEvent` — event codes in declaration (iota) order. -/
inductive ClientEvent where
  | ClientEventOpen
  | ClientEventEnsureFundsFailed
  | ClientEventFundingInitiated
  | ClientEventFundsEnsured
  | ClientEventWriteProposalFailed
  | ClientEventDealProposed
  | ClientEventDealStreamLookupErrored
  | ClientEventReadResponseFailed
  | ClientEventResponseVerificationFailed
  | ClientEventResponseDealDidNotMatch
  | ClientEventStreamCloseError
  | ClientEventDealRejected
  | ClientEventDealAccepted
  | ClientEventDealPublishFailed
  | ClientEventDealPublished
  | ClientEventDealActivationFailed
  | ClientEventDealActivated
  | ClientEventFailed
  | ClientEventRestart
deriving DecidableEq, Repr

open ProviderEvent ClientEvent in
/-- `var ProviderEvents = map[ProviderEvent]string{...}` — the provider event
display-name map, entries in source order. -/
def ProviderEventsNames : List (ProviderEvent × String) :=
  [(ProviderEventOpen, "ProviderEventOpen"),
   (ProviderEventNodeErrored, "ProviderEventNodeErrored"),
   (ProviderEventDealRejected, "ProviderEventDealRejected"),
   (ProviderEventDealAccepted, "ProviderEventDealAccepted"),
   (ProviderEventWaitingForManualData, "ProviderEventWaitingForManualData"),
   (ProviderEventInsufficientFunds, "ProviderEventInsufficientFunds"),
   (ProviderEventFundingInitiated, "ProviderEventFundingInitiated"),
   (ProviderEventFunded, "ProviderEventFunded"),
   (ProviderEventDataTransferFailed, "ProviderEventDataTransferFailed"),
   (ProviderEventDataTransferInitiated, "ProviderEventDataTransferInitiated"),
   (ProviderEventDataTransferCompleted, "ProviderEventDataTransferCompleted"),
   (ProviderEventManualDataReceived, "ProviderEventManualDataReceived"),
   (ProviderEventGeneratePieceCIDFailed, "ProviderEventGeneratePieceCIDFailed"),
   (ProviderEventVerifiedData, "ProviderEventVerifiedData"),
   (ProviderEventSendResponseFailed, "ProviderEventSendResponseFailed"),
   (ProviderEventDealPublishInitiated, "ProviderEventDealPublishInitiated"),
   (ProviderEventDealPublished, "ProviderEventDealPublished"),
   (ProviderEventDealPublishError, "ProviderEventDealPublishError"),
   (ProviderEventFileStoreErrored, "ProviderEventFileStoreErrored"),
   (ProviderEventDealHandoffFailed, "ProviderEventDealHandoffFailed"),
   (ProviderEventDealHandedOff, "ProviderEventDealHandedOff"),
   (ProviderEventDealActivationFailed, "ProviderEventDealActivationFailed"),
   (ProviderEventUnableToLocatePiece, "ProviderEventUnableToLocatePiece"),
   (ProviderEventDealActivated, "ProviderEventDealActivated"),
   (ProviderEventPieceStoreErrored, "ProviderEventPieceStoreErrored"),
   (ProviderEventReadMetadataErrored, "ProviderEventReadMetadataErrored"),
   (ProviderEventDealCompleted, "ProviderEventDealCompleted"),
   (ProviderEventFailed, "ProviderEventFailed"),
   (ProviderEventRestart, "ProviderEventRestart")]

open ClientEvent in
/-- `var ClientEvents = map[ClientEvent]string{...}` — the client event
display-name map, entries in source order. -/
def ClientEventsNames : List (ClientEvent × String) :=
  [(ClientEventOpen, "ClientEventOpen"),
   (ClientEventEnsureFundsFailed, "ClientEventEnsureFundsFailed"),
   (ClientEventFundingInitiated, "ClientEventFundingInitiated"),
   (ClientEventFundsEnsured, "ClientEventFundsEnsured"),
   (ClientEventWriteProposalFailed, "ClientEventWriteProposalFailed"),
   (ClientEventDealProposed, "ClientEventDealProposed"),
   (ClientEventDealStreamLookupErrored, "ClientEventDealStreamLookupErrored"),
   (ClientEventReadResponseFailed, "ClientEventReadResponseFailed"),
   (ClientEventResponseVerificationFailed, "ClientEventResponseVerificationFailed"),
   (ClientEventResponseDealDidNotMatch, "ClientEventResponseDealDidNotMatch"),
   (ClientEventStreamCloseError, "ClientEventStreamCloseError"),
   (ClientEventDealRejected, "ClientEventDealRejected"),
   (ClientEventDealAccepted, "ClientEventDealAccepted"),
   (ClientEventDealPublishFailed, "ClientEventDealPublishFailed"),
   (ClientEventDealPublished, "ClientEventDealPublished"),
   (ClientEventDealActivationFailed, "ClientEventDealActivationFailed"),
   (ClientEventDealActivated, "ClientEventDealActivated"),
   (ClientEventFailed, "ClientEventFailed")]

/-- Go map lookup (`m[k]`, second return value pattern): first matching key. -/
def lookupName {α : Type} [DecidableEq α] (m : List (α × String)) (k : α) : Option String :=
  (m.find? (fun kv => kv.fst = k)).map (fun kv => kv.snd)

end storagemarket

namespace providerstates

open storagemarket

/-- A provider FSM event together with the typed payload its action closure
receives (`fsm.Event(...).Action(func(deal *MinerDeal, ...))`).  Errors are
their rendered text; CIDs, deal ids are opaque `Nat`s; paths are strings.
The three event codes that have no row in `providerstates.ProviderEvents`
(`InsufficientFunds`, `ManualDataReceived`, `Restart`) are included so that
firing them can be modelled. -/
inductive PEvent where
  | Open
  | NodeErrored (err : String)
  | DealRejected (err : String)
  | DealAccepted
  | WaitingForManualData
  | InsufficientFunds
  | FundingInitiated (mcid : Nat)
  | Funded
  | DataTransferFailed (err : String)
  | DataTransferInitiated
  | DataTransferCompleted
  | ManualDataReceived
  | GeneratePieceCIDFailed (err : String)
  | VerifiedData (path : String) (metadataPath : String)
  | SendResponseFailed (err : String)
  | DealPublishInitiated (publishCid : Nat)
  | DealPublished (dealID : Nat)
  | DealPublishError (err : String)
  | FileStoreErrored (err : String)
  | DealHandoffFailed (err : String)
  | DealHandedOff
  | DealActivationFailed (err : String)
  | UnableToLocatePiece (dealID : Nat) (err : String)
  | DealActivated
  | PieceStoreErrored (err : String)
  | ReadMetadataErrored (err : String)
  | DealCompleted
  | Failed
  | Restart
deriving DecidableEq, Repr

/-- `var ProviderEvents = fsm.Events{...}` — one arm per `fsm.Event` row of
the provider transition table, in source order.  A row applies when the
record's current state is in the row's `From`/`FromMany` set (`FromAny`
matches every state); it runs the row's `Action` on the record and assigns
the `To` state.  Firing an event whose row does not cover the current
state, or an event with no row at all, is an invalid transition: the result
is `none` and the record is unchanged.  Message strings follow
`xerrors.Errorf("prefix: %w", err).Error()`. -/
def applyEvent (d : MinerDeal) : PEvent → Option MinerDeal
  | .Open =>
      if d.State = StorageDealUnknown then
        some { d with State := StorageDealValidating }
      else none
  | .NodeErrored err =>
      some { d with State := StorageDealFailing,
                    Message := "error calling node: " ++ err }
  | .DealRejected err =>
      if d.State = StorageDealValidating ∨ d.State = StorageDealVerifyData then
        some { d with State := StorageDealFailing,
                      Message := "deal rejected: " ++ err }
      else none
  | .DealAccepted =>
      if d.State = StorageDealValidating then
        some { d with State := StorageDealProposalAccepted }
      else none
  | .WaitingForManualData =>
      if d.State = StorageDealProposalAccepted then
        some { d with State := StorageDealWaitingForData }
      else none
  | .DataTransferFailed err =>
      if d.State = StorageDealProposalAccepted ∨ d.State = StorageDealTransferring then
        some { d with State := StorageDealFailing,
                      Message := "error transferring data: " ++ err }
      else none
  | .DataTransferInitiated =>
      if d.State = StorageDealProposalAccepted then
        some { d with State := StorageDealTransferring }
      else none
  | .DataTransferCompleted =>
      if d.State = StorageDealTransferring then
        some { d with State := StorageDealVerifyData }
      else none
  | .GeneratePieceCIDFailed err =>
      if d.State = StorageDealVerifyData then
        some { d with State := StorageDealFailing,
                      Message := "generating piece committment: " ++ err }
      else none
  | .VerifiedData path metadataPath =>
      if d.State = StorageDealVerifyData ∨ d.State = StorageDealWaitingForData then
        some { d with State := StorageDealEnsureProviderFunds,
                      PiecePath := path, MetadataPath := metadataPath }
      else none
  | .FundingInitiated mcid =>
      if d.State = StorageDealEnsureProviderFunds then
        some { d with State := StorageDealProviderFunding,
                      AddFundsCid := some mcid }
      else none
  | .Funded =>
      if d.State = StorageDealProviderFunding ∨ d.State = StorageDealEnsureProviderFunds then
        some { d with State := StorageDealPublish }
      else none
  | .DealPublishInitiated publishCid =>
      if d.State = StorageDealPublish then
        some { d with State := StorageDealPublishing,
                      PublishCid := some publishCid }
      else none
  | .DealPublishError err =>
      if d.State = StorageDealPublishing then
        some { d with State := StorageDealFailing,
                      Message := "PublishStorageDeal error: " ++ err }
      else none
  | .SendResponseFailed err =>
      if d.State = StorageDealPublishing ∨ d.State = StorageDealFailing then
        some { d with State := StorageDealError,
                      Message := "sending response to deal: " ++ err }
      else none
  | .DealPublished dealID =>
      if d.State = StorageDealPublishing then
        some { d with State := StorageDealStaged,
                      ConnectionClosed := true, DealID := dealID }
      else none
  | .FileStoreErrored err =>
      if d.State = StorageDealStaged ∨ d.State = StorageDealSealing ∨ d.State = StorageDealActive then
        some { d with State := StorageDealFailing,
                      Message := "accessing file store: " ++ err }
      else none
  | .DealHandoffFailed err =>
      if d.State = StorageDealStaged then
        some { d with State := StorageDealFailing,
                      Message := "handing off deal to node: " ++ err }
      else none
  | .DealHandedOff =>
      if d.State = StorageDealStaged then
        some { d with State := StorageDealSealing }
      else none
  | .DealActivationFailed err =>
      if d.State = StorageDealSealing then
        some { d with State := StorageDealFailing,
                      Message := "error activating deal: " ++ err }
      else none
  | .DealActivated =>
      if d.State = StorageDealSealing then
        some { d with State := StorageDealActive }
      else none
  | .PieceStoreErrored err =>
      if d.State = StorageDealActive then
        some { d with State := StorageDealFailing,
                      Message := "accessing piece store: " ++ err }
      else none
  | .DealCompleted =>
      if d.State = StorageDealActive then
        some { d with State := StorageDealCompleted }
      else none
  | .UnableToLocatePiece _ err =>
      if d.State = StorageDealActive then
        some { d with State := StorageDealFailing,
                      Message := "locating piece for deal ID " ++ toString d.DealID
                                   ++ " in sector: " ++ err }
      else none
  | .ReadMetadataErrored err =>
      if d.State = StorageDealActive then
        some { d with State := StorageDealFailing,
                      Message := "error reading piece metadata: " ++ err }
      else none
  | .Failed =>
      if d.State = StorageDealFailing then
        some { d with State := StorageDealError }
      else none
  | .InsufficientFunds => none
  | .ManualDataReceived => none
  | .Restart => none

/-- `var ProviderFinalityStates = []fsm.StateKey{...}` -/
def ProviderFinalityStates : List StorageDealStatus :=
  [StorageDealError, StorageDealCompleted]

/-- Modelled from the spec: the state-machine group built by
`storageimpl.NewProviderStateMachine` (not under src/) "reports the record
as terminated" exactly when its state is one of `ProviderFinalityStates`. -/
def IsTerminated (d : MinerDeal) : Bool :=
  ProviderFinalityStates.contains d.State

/-- Modelled from the spec: the Event Processor (engine code not under src/)
drops any event fired against a terminated record with an
"invalid transition" diagnostic, and rejects events not declared in the
transition table for the current state the same way; otherwise it applies
the table row. -/
def fireEvent (d : MinerDeal) (e : PEvent) : Except String MinerDeal :=
  if IsTerminated d then Except.error "invalid transition"
  else
    match applyEvent d e with
    | some d2 => Except.ok d2
    | none => Except.error "invalid transition"

/-- One engine step on a record: a rejected event leaves the record
unchanged. -/
def stepEvent (d : MinerDeal) (e : PEvent) : MinerDeal :=
  match fireEvent d e with
  | Except.ok d2 => d2
  | Except.error _ => d

/-- Run a sequence of fired events through the engine. -/
def runEvents (d : MinerDeal) : List PEvent → MinerDeal
  | [] => d
  | e :: es => runEvents (stepEvent d e) es

/-- Does the run from `d` pass through a state satisfying `p` at some point
strictly after the start? -/
def visitsDuring (p : StorageDealStatus → Bool) (d : MinerDeal) : List PEvent → Bool
  | [] => false
  | e :: es => p (stepEvent d e).State || visitsDuring p (stepEvent d e) es

/-- The outcome a run of `ValidateDealProposal` feeds back into the event
processor. -/
inductive ValidateOutcome where
  | NodeErrored (err : String)
  | DealRejected (err : String)
  | DealAccepted
deriving DecidableEq, Repr

/-- The environment facade and node behaviour `ValidateDealProposal`
consults: local provider address, ask snapshot, acceptance buffer, and the
results of the node calls (signature verification, chain head, client
market balance). -/
structure ValidateEnv where
  Address : Nat
  Ask : StorageAsk
  DealAcceptanceBuffer : Int
  VerifySignatureOk : Bool
  GetChainHeadErr : Option String
  Height : Int
  GetBalanceErr : Option String
  ClientBalanceAvailable : Int
deriving DecidableEq, Repr

/-- The minimum storage price per epoch for a piece: the ask price (per GiB
and epoch) scaled by the piece size, `ask.Price * PieceSize / (1 << 30)`
in integer arithmetic. -/
def minPricePerEpoch (askPrice : Int) (pieceSize : Nat) : Int :=
  askPrice * (pieceSize : Int) / ((2 : Int) ^ 30)

/-- Modelled from the spec: the handler `validate_deal_proposal`
(`providerstates.ValidateDealProposal`, body not under src/) — verify the
proposal signature; verify the provider address matches the local address;
query the chain head; reject if `current_epoch > start_epoch -
acceptance_buffer`; reject if the price per epoch is below the ask price
scaled to the piece size; reject if `piece_size < ask.min_piece_size` (or
above the maximum); query the client's market balance and reject if it is
below the required client lockup (deal duration times price per epoch).
Policy failures produce `DealRejected`, chain-lookup failures
`NodeErrored`, otherwise `DealAccepted`.  The diagnostic strings are the
ones the unit tests under src/ assert. -/
def ValidateDealProposal (env : ValidateEnv) (deal : MinerDeal) : ValidateOutcome :=
  if env.VerifySignatureOk = false then
    ValidateOutcome.DealRejected
      "verifying StorageDealProposal: could not verify signature"
  else if deal.Proposal.Provider ≠ env.Address then
    ValidateOutcome.DealRejected "incorrect provider for deal"
  else
    match env.GetChainHeadErr with
    | some e => ValidateOutcome.NodeErrored ("getting most recent state id: " ++ e)
    | none =>
      if env.Height > deal.Proposal.StartEpoch - env.DealAcceptanceBuffer then
        ValidateOutcome.DealRejected
          "deal start epoch is too soon or deal already expired"
      else if deal.Proposal.StoragePricePerEpoch <
                minPricePerEpoch env.Ask.Price deal.Proposal.PieceSize then
        ValidateOutcome.DealRejected
          ("storage price per epoch less than asking price: "
            ++ toString deal.Proposal.StoragePricePerEpoch ++ " < "
            ++ toString (minPricePerEpoch env.Ask.Price deal.Proposal.PieceSize))
      else if deal.Proposal.PieceSize < env.Ask.MinPieceSize then
        ValidateOutcome.DealRejected
          ("piece size less than minimum required size: "
            ++ toString deal.Proposal.PieceSize ++ " < "
            ++ toString env.Ask.MinPieceSize)
      else if deal.Proposal.PieceSize > env.Ask.MaxPieceSize then
        ValidateOutcome.DealRejected "piece size more than maximum allowed size"
      else
        match env.GetBalanceErr with
        | some e =>
            ValidateOutcome.NodeErrored ("getting client market balance failed: " ++ e)
        | none =>
          if env.ClientBalanceAvailable <
              deal.Proposal.Duration * deal.Proposal.StoragePricePerEpoch then
            ValidateOutcome.DealRejected "clientMarketBalance.Available too small"
          else ValidateOutcome.DealAccepted

/-- Running the validating-state handler and feeding its outcome back into
the event processor. -/
def validateStep (env : ValidateEnv) (d : MinerDeal) : MinerDeal :=
  match ValidateDealProposal env d with
  | ValidateOutcome.DealAccepted => stepEvent d PEvent.DealAccepted
  | ValidateOutcome.DealRejected m => stepEvent d (PEvent.DealRejected m)
  | ValidateOutcome.NodeErrored m => stepEvent d (PEvent.NodeErrored m)

/-- The environment behaviour `FailDeal` consults: whether sending a signed
response fails, and with which error. -/
structure FailDealEnv where
  SendSignedResponseErr : Option String
deriving DecidableEq, Repr

/-- Modelled from the spec: the handler `fail_deal`
(`providerstates.FailDeal`, body not under src/) — if the connection is
still open, send a signed failure response, reporting a send error via
`send_response_failed`; otherwise skip the response; then emit `failed`.
Returns whether `SendSignedResponse` was invoked, and the emitted event. -/
def FailDeal (env : FailDealEnv) (d : MinerDeal) : Bool × PEvent :=
  if d.ConnectionClosed = false then
    match env.SendSignedResponseErr with
    | some e => (true, PEvent.SendResponseFailed e)
    | none => (true, PEvent.Failed)
  else (false, PEvent.Failed)

/-- Running the failing-state handler and feeding its emitted event back
into the event processor. -/
def failDealStep (env : FailDealEnv) (d : MinerDeal) : MinerDeal :=
  stepEvent d (FailDeal env d).snd

/-- Is a status the failing state? -/
def isFailing (s : StorageDealStatus) : Bool :=
  s == StorageDealFailing

/-- Is a status the failing state or the error state? -/
def isFailingOrError (s : StorageDealStatus) : Bool :=
  s == StorageDealFailing || s == StorageDealError

/-- The message invariant the engine maintains: a record sitting in the
failing or error state carries a non-empty failure message. -/
def MessageInv (d : MinerDeal) : Prop :=
  d.State = StorageDealFailing ∨ d.State = StorageDealError → d.Message ≠ ""

/-- The deal proposal of the unit tests' default fixture: piece size 1 MiB,
price 10000 per epoch, epochs 200 to 400. -/
def defaultProposal : DealProposal :=
  { PieceCID := 101, PieceSize := 1048576, Client := 1, Provider := 2,
    StartEpoch := 200, EndEpoch := 400, StoragePricePerEpoch := 10000,
    ProviderCollateral := 0, ClientCollateral := 0 }

/-- A concrete deal record fixture, in the validating state. -/
def defaultDeal : MinerDeal :=
  { Proposal := defaultProposal, ProposalCid := 50, AddFundsCid := some 51,
    PublishCid := some 52, Miner := 7, Client := 8,
    State := StorageDealValidating, PiecePath := "", MetadataPath := "",
    ConnectionClosed := false, Message := "", DealID := 0 }

/-- The unit tests' default ask: price 10000000 per GiB and epoch, piece
size bounds 256 to 1 MiB. -/
def defaultAsk : StorageAsk :=
  { Price := 10000000, MinPieceSize := 256, MaxPieceSize := 1048576,
    Miner := 9, Timestamp := 0, Expiry := 0, SeqNo := 0 }

/-- The unit tests' default validation environment: matching provider
address, healthy node, chain height 50, client balance 2000000. -/
def defaultEnv : ValidateEnv :=
  { Address := 2, Ask := defaultAsk, DealAcceptanceBuffer := 0,
    VerifySignatureOk := true, GetChainHeadErr := none, Height := 50,
    GetBalanceErr := none, ClientBalanceAvailable := 2000000 }

/-- The "PricePerEpoch too low" fixture: the default deal with storage
price per epoch 5000. -/
def c5Deal : MinerDeal :=
  { defaultDeal with
      Proposal := { defaultProposal with StoragePricePerEpoch := 5000 } }

/-- The timing-scenario environment: acceptance buffer 10 at chain
height `h`. -/
def c6Env (h : Int) : ValidateEnv :=
  { defaultEnv with DealAcceptanceBuffer := 10, Height := h }

/-- A concrete record in the error state. -/
def errorDeal : MinerDeal := { defaultDeal with State := StorageDealError }

/-- A concrete record in the publishing state. -/
def publishingDeal : MinerDeal :=
  { defaultDeal with State := StorageDealPublishing }

/-- A concrete record as the open event first sees it: unknown state and
empty message. -/
def openDeal : MinerDeal := { defaultDeal with State := StorageDealUnknown }

/-- A fired-event sequence that ends in the error state by way of the
failing state. -/
def c4Events : List PEvent :=
  [PEvent.Open, PEvent.NodeErrored "boom", PEvent.Failed]

/-- The happy path up to publishing followed by a failed response send:
open, accept, transfer, verify, fund, publish, then the send fails. -/
def c4CounterEvents : List PEvent :=
  [PEvent.Open, PEvent.DealAccepted, PEvent.DataTransferInitiated,
   PEvent.DataTransferCompleted, PEvent.VerifiedData "file.txt" "metadataPath.txt",
   PEvent.FundingInitiated 61, PEvent.Funded, PEvent.DealPublishInitiated 62,
   PEvent.SendResponseFailed "could not send"]

/-- A concrete record in the failing state whose connection is already
closed. -/
def failingClosedDeal : MinerDeal :=
  { defaultDeal with State := StorageDealFailing, ConnectionClosed := true }

/-- A fail-deal environment in which sending a signed response would
error. -/
def failEnvErr : FailDealEnv := { SendSignedResponseErr := some "could not send" }

/-- A concrete record in the active state with on-chain deal id 1234. -/
def activeDeal : MinerDeal :=
  { defaultDeal with State := StorageDealActive, DealID := 1234 }

end providerstates

namespace providerstates

open storagemarket

theorem string_append_eq_empty_iff (p s : String) :
    p ++ s = "" ↔ (p = "" ∧ s = "") := by
  simp [String.ext_iff, String.data_append]

/-- C1: the provider terminal states are exactly StorageDealCompleted and
StorageDealError; a record in one of them is reported as terminated and
every fired event is rejected with an invalid-transition diagnostic,
leaving the record unchanged; a record in any other state is not reported
as terminated. -/
theorem C1_provider_terminality (d : MinerDeal) :
    (IsTerminated d = true ↔
      (d.State = StorageDealCompleted ∨ d.State = StorageDealError)) ∧
    (IsTerminated d = true → ∀ e : PEvent,
      fireEvent d e = Except.error "invalid transition" ∧ stepEvent d e = d) := by
  constructor
  · simp [IsTerminated, ProviderFinalityStates]
    tauto
  · intro ht e
    constructor
    · simp [fireEvent, ht]
    · simp [stepEvent, fireEvent, ht]

theorem C1_provider_terminality_witness :
    IsTerminated errorDeal = true ∧
    fireEvent errorDeal PEvent.Open = Except.error "invalid transition" ∧
    stepEvent errorDeal PEvent.Open = errorDeal :=
  ⟨rfl, ((C1_provider_terminality errorDeal).2 rfl PEvent.Open).1,
    ((C1_provider_terminality errorDeal).2 rfl PEvent.Open).2⟩

/-- C2 counterexample: the provider transition table has no row for the
restart event; fired from the validating state it yields `none` (an
invalid transition) instead of re-entering the state. -/
theorem C2_restart_counterexample :
    applyEvent defaultDeal PEvent.Restart = none ∧
    applyEvent defaultDeal PEvent.Restart ≠ some defaultDeal ∧
    fireEvent defaultDeal PEvent.Restart = Except.error "invalid transition" := by
  refine ⟨rfl, ?_, rfl⟩
  intro h
  exact Option.noConfusion h

/-- C2 amended: the provider transition table contains no transition for
ProviderEventRestart; firing the restart event from any state is rejected
as an invalid transition and the record is unchanged. -/
theorem C2_restart_amended (d : MinerDeal) :
    applyEvent d PEvent.Restart = none ∧ stepEvent d PEvent.Restart = d := by
  refine ⟨rfl, ?_⟩
  unfold stepEvent fireEvent
  cases h : IsTerminated d <;> simp [h, applyEvent]

/-- C3: from the publishing state, the deal-published event carrying deal
id D moves the record to the staged state, stamps DealID with D, and sets
the connection-closed flag. -/
theorem C3_deal_published (d : MinerDeal) (D : Nat)
    (h : d.State = StorageDealPublishing) :
    applyEvent d (PEvent.DealPublished D) =
      some { d with State := StorageDealStaged, ConnectionClosed := true,
                    DealID := D } := by
  simp [applyEvent, h]

theorem C3_deal_published_witness :
    applyEvent publishingDeal (PEvent.DealPublished 42) =
      some { publishingDeal with State := StorageDealStaged,
                                 ConnectionClosed := true, DealID := 42 } :=
  C3_deal_published publishingDeal 42 rfl

/-- C7: the node-errored event applies from any state, moves the record to
the failing state, and sets the message to "error calling node: " followed
by the error text. -/
theorem C7_node_errored_from_any (d : MinerDeal) (err : String) :
    applyEvent d (PEvent.NodeErrored err) =
      some { d with State := StorageDealFailing,
                    Message := "error calling node: " ++ err } := rfl

/-- C8: the client event display-name map has no entry for
ClientEventRestart, while the provider map sends ProviderEventRestart to
"ProviderEventRestart". -/
theorem C8_restart_name_maps :
    lookupName ClientEventsNames ClientEvent.ClientEventRestart = none ∧
    lookupName ProviderEventsNames ProviderEvent.ProviderEventRestart =
      some "ProviderEventRestart" := by
  exact ⟨rfl, rfl⟩

/-- C10: from the active state, the unable-to-locate-piece event formats
the failure message from the record's own DealID field, and its result
does not depend on the deal id carried in the event payload. -/
theorem C10_locate_piece_uses_record_dealID (d : MinerDeal) (pid : Nat)
    (err : String) (hs : d.State = StorageDealActive) :
    applyEvent d (PEvent.UnableToLocatePiece pid err) =
      some { d with State := StorageDealFailing,
                    Message := "locating piece for deal ID " ++ toString d.DealID
                                 ++ " in sector: " ++ err } ∧
    ∀ pid2 : Nat,
      applyEvent d (PEvent.UnableToLocatePiece pid err) =
        applyEvent d (PEvent.UnableToLocatePiece pid2 err) := by
  refine ⟨by simp [applyEvent, hs], fun pid2 => rfl⟩

theorem C10_locate_piece_witness :
    applyEvent activeDeal (PEvent.UnableToLocatePiece 5678 "could not find piece") =
      some { activeDeal with
               State := StorageDealFailing,
               Message := "locating piece for deal ID 1234 in sector: could not find piece" } ∧
    applyEvent activeDeal (PEvent.UnableToLocatePiece 5678 "could not find piece") =
      applyEvent activeDeal (PEvent.UnableToLocatePiece 9999 "could not find piece") :=
  ⟨(C10_locate_piece_uses_record_dealID activeDeal 5678 "could not find piece" rfl).1,
   (C10_locate_piece_uses_record_dealID activeDeal 5678 "could not find piece" rfl).2 9999⟩

end providerstates

namespace providerstates

open storagemarket

/-- C5: against an ask of 10000000 per GiB and epoch, a 1 MiB piece priced
at 5000 per epoch is rejected — the minimum price per epoch computes to
9765 — and the record enters the failing state with the exact message. -/
theorem C5_price_too_low :
    minPricePerEpoch defaultEnv.Ask.Price c5Deal.Proposal.PieceSize = 9765 ∧
    ValidateDealProposal defaultEnv c5Deal =
      ValidateOutcome.DealRejected
        "storage price per epoch less than asking price: 5000 < 9765" ∧
    (validateStep defaultEnv c5Deal).State = StorageDealFailing ∧
    (validateStep defaultEnv c5Deal).Message =
      "deal rejected: storage price per epoch less than asking price: 5000 < 9765" :=
  ⟨rfl, rfl, rfl, rfl⟩

/-- C6: with acceptance buffer 10 and proposal start epoch 200, validation
rejects exactly when the chain height exceeds 190: above 190 the record
enters failing with the timing message, at or below 190 it is accepted. -/
theorem C6_timing_boundary (h : Int) :
    (h > 190 →
      (validateStep (c6Env h) defaultDeal).State = StorageDealFailing ∧
      (validateStep (c6Env h) defaultDeal).Message =
        "deal rejected: deal start epoch is too soon or deal already expired") ∧
    (h ≤ 190 →
      (validateStep (c6Env h) defaultDeal).State = StorageDealProposalAccepted) := by
  have hb : defaultDeal.Proposal.StartEpoch - (c6Env h).DealAcceptanceBuffer = 190 := rfl
  constructor
  · intro hh
    have hr : ValidateDealProposal (c6Env h) defaultDeal =
        ValidateOutcome.DealRejected
          "deal start epoch is too soon or deal already expired" := by
      unfold ValidateDealProposal
      rw [hb]
      simp [c6Env, defaultEnv, defaultDeal, defaultProposal, hh]
    have hv : validateStep (c6Env h) defaultDeal =
        stepEvent defaultDeal
          (PEvent.DealRejected "deal start epoch is too soon or deal already expired") := by
      unfold validateStep
      rw [hr]
    rw [hv]
    exact ⟨rfl, rfl⟩
  · intro hh
    have hr : ValidateDealProposal (c6Env h) defaultDeal =
        ValidateOutcome.DealAccepted := by
      unfold ValidateDealProposal
      rw [hb]
      have hnot : ¬ (h > 190) := not_lt.mpr hh
      simp [c6Env, defaultEnv, defaultDeal, defaultProposal, defaultAsk,
        minPricePerEpoch, DealProposal.Duration, hnot]
    have hv : validateStep (c6Env h) defaultDeal =
        stepEvent defaultDeal PEvent.DealAccepted := by
      unfold validateStep
      rw [hr]
    rw [hv]
    rfl

theorem C6_timing_boundary_witness :
    ((validateStep (c6Env 191) defaultDeal).State = StorageDealFailing ∧
     (validateStep (c6Env 191) defaultDeal).Message =
       "deal rejected: deal start epoch is too soon or deal already expired") ∧
    (validateStep (c6Env 190) defaultDeal).State = StorageDealProposalAccepted :=
  ⟨(C6_timing_boundary 191).1 (by decide), (C6_timing_boundary 190).2 (by decide)⟩

/-- C9: when the fail-deal handler runs on a failing record whose
connection is closed, no signed response is sent (so a send error cannot
occur) and the record moves to the error state with its message
unchanged. -/
theorem C9_fail_deal_skips_response (env : FailDealEnv) (d : MinerDeal)
    (hs : d.State = StorageDealFailing) (hc : d.ConnectionClosed = true) :
    FailDeal env d = (false, PEvent.Failed) ∧
    failDealStep env d = { d with State := StorageDealError } := by
  have h1 : FailDeal env d = (false, PEvent.Failed) := by
    simp [FailDeal, hc]
  refine ⟨h1, ?_⟩
  simp [failDealStep, h1, stepEvent, fireEvent, IsTerminated,
    ProviderFinalityStates, hs, applyEvent, StorageDealFailing,
    StorageDealError, StorageDealCompleted]

theorem C9_fail_deal_skips_response_witness :
    FailDeal failEnvErr failingClosedDeal = (false, PEvent.Failed) ∧
    failDealStep failEnvErr failingClosedDeal =
      { failingClosedDeal with State := StorageDealError } :=
  ⟨(C9_fail_deal_skips_response failEnvErr failingClosedDeal rfl rfl).1,
   (C9_fail_deal_skips_response failEnvErr failingClosedDeal rfl rfl).2⟩

end providerstates

namespace providerstates

open storagemarket

theorem isFailingOrError_eq_true_iff (s : StorageDealStatus) :
    isFailingOrError s = true ↔
      (s = StorageDealFailing ∨ s = StorageDealError) := by
  simp [isFailingOrError]

theorem applyEvent_message (d d2 : MinerDeal) (e : PEvent) (hI : MessageInv d)
    (h : applyEvent d e = some d2) :
    MessageInv d2 ∧
    (d2.Message ≠ "" ↔ (d.Message ≠ "" ∨ isFailingOrError d2.State = true)) := by
  cases e <;>
    simp only [applyEvent] at h <;>
    (try split at h) <;>
    (try exact Option.noConfusion h) <;>
    (injection h with h) <;>
    subst h <;>
    simp_all [MessageInv, isFailingOrError, string_append_eq_empty_iff,
      StorageDealUnknown, StorageDealProposalAccepted, StorageDealStaged,
      StorageDealSealing, StorageDealActive, StorageDealFailing,
      StorageDealValidating, StorageDealTransferring, StorageDealWaitingForData,
      StorageDealVerifyData, StorageDealEnsureProviderFunds,
      StorageDealProviderFunding, StorageDealPublish, StorageDealPublishing,
      StorageDealError, StorageDealCompleted]

theorem unchanged_message_iff (d : MinerDeal) (hI : MessageInv d) :
    d.Message ≠ "" ↔ (d.Message ≠ "" ∨ isFailingOrError d.State = true) := by
  constructor
  · exact Or.inl
  · intro hc
    cases hc with
    | inl hm => exact hm
    | inr hf => exact hI ((isFailingOrError_eq_true_iff d.State).mp hf)

theorem stepEvent_message (d : MinerDeal) (e : PEvent) (hI : MessageInv d) :
    MessageInv (stepEvent d e) ∧
    ((stepEvent d e).Message ≠ "" ↔
      (d.Message ≠ "" ∨ isFailingOrError (stepEvent d e).State = true)) := by
  unfold stepEvent fireEvent
  by_cases ht : IsTerminated d = true
  · simp only [ht, if_true]
    exact ⟨hI, unchanged_message_iff d hI⟩
  · simp only [ht, if_false]
    cases hA : applyEvent d e with
    | none => exact ⟨hI, unchanged_message_iff d hI⟩
    | some d2 => exact applyEvent_message d d2 e hI hA

theorem runEvents_message (d : MinerDeal) (es : List PEvent) (hI : MessageInv d) :
    MessageInv (runEvents d es) ∧
    ((runEvents d es).Message ≠ "" ↔
      (d.Message ≠ "" ∨ visitsDuring isFailingOrError d es = true)) := by
  induction es generalizing d with
  | nil =>
    refine ⟨hI, ?_⟩
    simp [runEvents, visitsDuring]
  | cons e es ih =>
    obtain ⟨h1, h2⟩ := stepEvent_message d e hI
    obtain ⟨h3, h4⟩ := ih (stepEvent d e) h1
    refine ⟨h3, ?_⟩
    show (runEvents (stepEvent d e) es).Message ≠ "" ↔ _
    rw [h4, h2]
    simp [visitsDuring, Bool.or_eq_true, or_assoc]

/-- C4 amended: for every record as first handed to the open event (unknown
state, empty message) and every fired event sequence, the final message is
non-empty exactly when the run passed through the failing state or the
error state; in particular every record that reaches the error state
carries a non-empty message. -/
theorem C4_message_iff_failing_or_error (d : MinerDeal) (es : List PEvent)
    (h0 : d.State = StorageDealUnknown) (hm : d.Message = "") :
    ((runEvents d es).Message ≠ "" ↔
      visitsDuring isFailingOrError d es = true) ∧
    ((runEvents d es).State = StorageDealError →
      (runEvents d es).Message ≠ "") := by
  have hI : MessageInv d := by
    intro hc
    rw [h0] at hc
    cases hc with
    | inl hx => exact absurd hx (by decide)
    | inr hx => exact absurd hx (by decide)
  obtain ⟨h1, h2⟩ := runEvents_message d es hI
  constructor
  · rw [h2, hm]
    simp
  · intro hE
    exact h1 (Or.inr hE)

theorem C4_message_iff_failing_or_error_witness :
    ((runEvents openDeal c4Events).Message ≠ "" ↔
      visitsDuring isFailingOrError openDeal c4Events = true) ∧
    ((runEvents openDeal c4Events).State = StorageDealError →
      (runEvents openDeal c4Events).Message ≠ "") :=
  C4_message_iff_failing_or_error openDeal c4Events rfl rfl

/-- C4 counterexample: a record driven along the happy path to publishing
whose response send then fails ends in the error state with a non-empty
message although its run never passed through the failing state, so a
non-empty message does not imply a passage through StorageDealFailing. -/
theorem C4_counterexample :
    (runEvents openDeal c4CounterEvents).Message =
      "sending response to deal: could not send" ∧
    (runEvents openDeal c4CounterEvents).Message ≠ "" ∧
    visitsDuring isFailing openDeal c4CounterEvents = false ∧
    (runEvents openDeal c4CounterEvents).State = StorageDealError := by
  refine ⟨rfl, ?_, rfl, rfl⟩
  intro h
  simp only [runEvents, stepEvent, fireEvent, applyEvent] at h
  exact absurd h (by decide)

end providerstates
